import Mathlib

/-!
Verification development for the `ondulextractor` single-page application
(`src/src/App.js`): a Google-Places lead extractor behind a shared-secret
access gate.  The React component is embedded shallowly: component state
becomes the structure `AppState`, the `setXxx` state updates become record
updates, the external provider calls (`textSearch`, `getDetails`,
`pagination.nextPage`) become emitted `Request` values, and `setTimeout`
becomes an `Emitted.after` entry carrying its delay.  An event-queue
semantics (`World`, `stepW`) models the browser's single-threaded
callback scheduling, so that interleavings of user actions and provider
callbacks can be examined.
-/

/-! ## Data model -/

/-- A place record as delivered by the provider.  JS object fields are all
optional; numbers are modelled as `Nat` (only truthiness and decimal
rendering of `rating` / `user_ratings_total` matter to the program). -/
structure Place where
  place_id : String
  name : Option String
  formatted_address : Option String
  formatted_phone_number : Option String
  website : Option String
  rating : Option Nat
  user_ratings_total : Option Nat
  photos : Option (List String)
deriving DecidableEq, Repr

/-- The pagination object handed to the search callback.  The stored
continuation closure is represented by the pagination token, which the
scheduled `Request.nextPage` later names. -/
structure Pagination where
  hasNextPage : Bool
  token : Nat
deriving DecidableEq, Repr

/-- The two views of line `activeTab` state: the search form and the
results grid. -/
inductive Tab where
  | search
  | results
deriving DecidableEq, Repr

/-- The React component state of `App` (the `useState` hooks): active tab,
query text, accumulated results, loading flag, error message, and the
stored continuation (`nextPage`), present as the pagination token. -/
structure AppState where
  activeTab : Tab
  query : String
  results : List Place
  loading : Bool
  error : String
  nextPage : Option Nat
deriving DecidableEq, Repr

/-- The fixed field list passed to every `getDetails` call. -/
def detailFields : List String :=
  ["name", "formatted_address", "formatted_phone_number", "website",
   "rating", "user_ratings_total", "photos"]

/-- An outbound call into the external Places provider. -/
inductive Request where
  | textSearch (q : String)
  | getDetails (placeId : String) (fields : List String)
  | nextPage (tok : Nat)
deriving DecidableEq, Repr

/-- An emitted external call: issued immediately, or scheduled through
`setTimeout` with a minimum delay in milliseconds. -/
inductive Emitted where
  | now (r : Request)
  | after (ms : Nat) (r : Request)
deriving DecidableEq, Repr

/-- The request an emission carries. -/
def Emitted.req : Emitted → Request
  | .now r => r
  | .after _ r => r

/-- The `setTimeout` contract: a callback scheduled at `schedAt` with delay
`delayMs` can only run at a time `fireAt` at least `delayMs` later. -/
def timerMinDelay (delayMs schedAt fireAt : Nat) : Prop :=
  schedAt + delayMs ≤ fireAt

/-- The provider's success status string
(`window.google.maps.places.PlacesServiceStatus.OK`). -/
def okStatus : String := "OK"

/-! ## Access gate (`SECRET_KEY`, the session `useEffect`, `handleLogin`) -/

def SECRET_KEY : String := "ONDULEX2025"

/-- Session lifetime: one day in milliseconds. -/
def SESSION_DURATION : Nat := 24 * 60 * 60 * 1000

/-- The persisted session record stored under the `onduleSession` key. -/
structure SessionData where
  key : String
  expiry : Nat
deriving DecidableEq, Repr

/-- The startup `useEffect`: read the persisted session; if present and not
yet expired, authenticate (record retained); if present but expired, delete
the record and stay unauthenticated.  Returns the resulting
`isAuthenticated` flag and the surviving stored record. -/
def restoreSession (now : Nat) (saved : Option SessionData) :
    Bool × Option SessionData :=
  match saved with
  | none => (false, none)
  | some s => if now < s.expiry then (true, some s) else (false, none)

/-- `handleLogin`: on a matching key, persist a fresh record expiring
`SESSION_DURATION` from now and authenticate; otherwise change nothing. -/
def handleLogin (now : Nat) (enteredKey : String)
    (saved : Option SessionData) : Bool × Option SessionData :=
  if enteredKey = SECRET_KEY then
    (true, some ⟨SECRET_KEY, now + SESSION_DURATION⟩)
  else
    (false, saved)

/-! ## Search controller -/

/-- JS `String.prototype.trim`, modelled on the character list. -/
def jsTrim (s : String) : String :=
  String.mk (((s.data.dropWhile Char.isWhitespace).reverse.dropWhile
    Char.isWhitespace).reverse)

/-- The message thrown when `window.google` is absent. -/
def sdkMissingMsg : String := "Google Maps SDK not loaded. Check index.html script."

/-- One primitive statement of `handleSearch`'s body: a state-setter call
or the `textSearch` request. -/
inductive Act where
  | setLoading (b : Bool)
  | setError (s : String)
  | setResults (rs : List Place)
  | setNextPage (p : Option Nat)
  | issueSearch (q : String)
deriving DecidableEq, Repr

/-- Interpret one `Act` over the state and the list of calls emitted so
far. -/
def applyAct : AppState × List Emitted → Act → AppState × List Emitted
  | (st, out), .setLoading b => ({ st with loading := b }, out)
  | (st, out), .setError s => ({ st with error := s }, out)
  | (st, out), .setResults rs => ({ st with results := rs }, out)
  | (st, out), .setNextPage p => ({ st with nextPage := p }, out)
  | (st, out), .issueSearch q =>
      (st, out ++ [Emitted.now (Request.textSearch q)])

/-- The statements `handleSearch` executes, in source order.  An empty
(after trimming) query returns before touching anything.  Otherwise the
four resets run, then either the single `textSearch` request (SDK loaded)
or the `catch` block (error message set, loading cleared). -/
def handleSearchActs (sdkLoaded : Bool) (st : AppState) : List Act :=
  if jsTrim st.query = "" then []
  else
    [Act.setLoading true, Act.setError "", Act.setResults [],
     Act.setNextPage none] ++
    (if sdkLoaded then [Act.issueSearch st.query]
     else [Act.setError sdkMissingMsg, Act.setLoading false])

/-- `handleSearch`: run its statements over the current state. -/
def handleSearch (sdkLoaded : Bool) (st : AppState) :
    AppState × List Emitted :=
  (handleSearchActs sdkLoaded st).foldl applyAct (st, [])

/-- The callback passed to each `getDetails` call: on success append the
detail record to the current results, on failure append the bare summary
`place`; nothing else is touched. -/
def detailsCallback (place : Place) (details : Place)
    (detailsStatus : String) (st : AppState) : AppState :=
  if detailsStatus = okStatus then
    { st with results := st.results ++ [details] }
  else
    { st with results := st.results ++ [place] }

/-- `placesCallback`: on a successful page, issue one `getDetails` per
summary, switch to the results tab, store the continuation token when the
pagination object reports a next page (clearing it otherwise), and clear
the loading flag.  On failure, set the error message from the status
verbatim and clear the loading flag; nothing else changes and nothing is
emitted. -/
def placesCallback (res : List Place) (status : String)
    (pagination : Option Pagination) (st : AppState) :
    AppState × List Emitted :=
  if status = okStatus then
    let out := res.map fun place =>
      Emitted.now (Request.getDetails place.place_id detailFields)
    let st1 := { st with activeTab := Tab.results }
    let st2 :=
      match pagination with
      | some pag =>
          if pag.hasNextPage then { st1 with nextPage := some pag.token }
          else { st1 with nextPage := none }
      | none => { st1 with nextPage := none }
    ({ st2 with loading := false }, out)
  else
    ({ st with
        error := "Google Places request failed: " ++ status,
        loading := false }, [])

/-- `loadMore`: with a stored continuation, set loading and call it — the
stored closure schedules `pagination.nextPage()` through a 2000 ms
`setTimeout`.  Without one, do nothing. -/
def loadMore (st : AppState) : AppState × List Emitted :=
  match st.nextPage with
  | some tok =>
      ({ st with loading := true },
       [Emitted.after 2000 (Request.nextPage tok)])
  | none => (st, [])

/-! ## Event-queue semantics

The browser runs everything on one thread; provider callbacks and user
actions interleave as events.  `World` pairs the component state with the
multiset of outstanding external requests; a response event can only be
consumed when its request is pending, and consuming it removes exactly
that request.  The component state carries no session tag, so a response
from a superseded search is processed exactly like a fresh one. -/

structure World where
  app : AppState
  pending : List Request
deriving DecidableEq, Repr

/-- An event: a user submitting a (possibly new) query, the search
callback, a detail callback, or a click on Load More. -/
inductive Event where
  | userSearch (sdkLoaded : Bool) (newQuery : String)
  | searchResponse (q : String) (res : List Place) (status : String)
      (pag : Option Pagination)
  | detailsResponse (place : Place) (details : Place) (status : String)
  | userLoadMore
deriving Repr

/-- Process one event.  Response events whose request is not pending are
ignored (they could not occur). -/
def stepW (w : World) (e : Event) : World :=
  match e with
  | .userSearch sdk q =>
      let r := handleSearch sdk { w.app with query := q }
      { app := r.1, pending := w.pending ++ r.2.map Emitted.req }
  | .searchResponse q res status pag =>
      if Request.textSearch q ∈ w.pending then
        let r := placesCallback res status pag w.app
        { app := r.1,
          pending := w.pending.erase (Request.textSearch q)
            ++ r.2.map Emitted.req }
      else w
  | .detailsResponse place details status =>
      if Request.getDetails place.place_id detailFields ∈ w.pending then
        { app := detailsCallback place details status w.app,
          pending :=
            w.pending.erase (Request.getDetails place.place_id detailFields) }
      else w
  | .userLoadMore =>
      let r := loadMore w.app
      { app := r.1, pending := w.pending ++ r.2.map Emitted.req }

/-- Run a sequence of events from a world. -/
def run (w : World) (es : List Event) : World := es.foldl stepW w

/-- The component's initial state. -/
def initState : AppState :=
  { activeTab := Tab.search, query := "", results := [], loading := false,
    error := "", nextPage := none }

/-! ## Result export (`downloadExcel`)

JS renders a non-zero number with `toString`; `natDigits` reproduces this
decimal rendering with explicit fuel so that every proof can evaluate it. -/

/-- Decimal digits of `n`, most significant first, computed with `fuel`
recursion steps (`fuel = n + 1` always suffices, since the argument is
divided by 10 at each step). -/
def natDigitsAux : Nat → Nat → List Char
  | 0, _ => []
  | fuel + 1, n =>
      if n < 10 then [Nat.digitChar n]
      else natDigitsAux fuel (n / 10) ++ [Nat.digitChar (n % 10)]

/-- Decimal digits of `n`, most significant first. -/
def natDigits (n : Nat) : List Char := natDigitsAux (n + 1) n

/-- JS rendering of a natural number as a decimal string. -/
def jsNatToString (n : Nat) : String := String.mk (natDigits n)

/-- JS `v || d` for an optional string `v`: the default `d` when `v` is
absent or the empty string (falsy), otherwise `v` itself. -/
def jsOrStr (v : Option String) (d : String) : String :=
  match v with
  | none => d
  | some s => if s = "" then d else s

/-- JS `v || d` for an optional number `v`: the default `d` when `v` is
absent or zero (falsy), otherwise the decimal rendering of `v`. -/
def jsOrNat (v : Option Nat) (d : String) : String :=
  match v with
  | none => d
  | some n => if n = 0 then d else jsNatToString n

/-- The row object `downloadExcel` builds for one result: the six columns
in the key order of the JS object literal, as (header, cell) pairs. -/
def exportRow (item : Place) : List (String × String) :=
  [("Name", jsOrStr item.name "N/A"),
   ("Address", jsOrStr item.formatted_address "N/A"),
   ("Phone", jsOrStr item.formatted_phone_number "N/A"),
   ("Website", jsOrStr item.website "N/A"),
   ("Rating", jsOrNat item.rating "N/A"),
   ("Total Reviews", jsOrNat item.user_ratings_total "0")]

/-- The sheet rows: `results.map(...)` inside `downloadExcel`. -/
def exportRows (results : List Place) : List (List (String × String)) :=
  results.map exportRow

/-- Cell `i` of the exported row for `item` (the pair's second
component), with `""` past the end. -/
def cellOf (item : Place) (i : Nat) : String :=
  ((exportRow item).map Prod.snd).getD i ""

/-- Whether a character survives the filename regex `[^a-zA-Z0-9_-]`
unreplaced. -/
def isFilenameSafe (c : Char) : Bool :=
  decide (('a' ≤ c ∧ c ≤ 'z') ∨ ('A' ≤ c ∧ c ≤ 'Z') ∨
    ('0' ≤ c ∧ c ≤ '9') ∨ c = '_' ∨ c = '-')

/-- One character of `query.replace(/[^a-zA-Z0-9_-]/g, "_")`. -/
def sanitizeChar (c : Char) : Char :=
  if isFilenameSafe c then c else '_'

/-- `sanitizedQuery` in `downloadExcel`. -/
def sanitizedQuery (q : String) : String :=
  String.mk (q.data.map sanitizeChar)

/-- The filename handed to `saveAs`, with the sliced ISO date as a
parameter. -/
def excelFilename (q : String) (isoDate : String) : String :=
  "leads_" ++ sanitizedQuery q ++ "_" ++ isoDate ++ ".xlsx"

/-- Whether a character is a decimal digit. -/
def isDigitCh (c : Char) : Bool := decide ('0' ≤ c ∧ c ≤ '9')

/-- Whether a string has the exact shape `YYYY-MM-DD`. -/
def isIsoDate (s : String) : Bool :=
  match s.data with
  | [a, b, c, d, e, f, g, h, i, j] =>
      isDigitCh a && isDigitCh b && isDigitCh c && isDigitCh d &&
      (e == '-') && isDigitCh f && isDigitCh g && (h == '-') &&
      isDigitCh i && isDigitCh j
  | _ => false

/-- Two-digit zero-padded component of an ISO timestamp. -/
def pad2 (n : Nat) : List Char :=
  if n < 10 then '0' :: natDigits n else natDigits n

/-- Four-digit zero-padded year of an ISO timestamp. -/
def pad4 (n : Nat) : List Char :=
  if n < 10 then '0' :: '0' :: '0' :: natDigits n
  else if n < 100 then '0' :: '0' :: natDigits n
  else if n < 1000 then '0' :: natDigits n
  else natDigits n

/-- The first ten characters of `new Date().toISOString()`: the current
UTC date `YYYY-MM-DD`, built from the clock's year, month and day.  This
models the external Date API consumed by `downloadExcel`. -/
def isoDateSlice10 (y m d : Nat) : String :=
  String.mk (pad4 y ++ '-' :: (pad2 m ++ '-' :: pad2 d))

/-! ## Concrete sample data (used by witnesses and counterexamples) -/

/-- A place summary as delivered by a first search page. -/
def s1 : Place :=
  { place_id := "p1", name := some "Cafe One", formatted_address := none,
    formatted_phone_number := none, website := none, rating := none,
    user_ratings_total := none, photos := none }

/-- The detail record for `s1`. -/
def d1 : Place :=
  { s1 with
      name := some "Cafe One Details",
      formatted_phone_number := some "123" }

/-- The initial world: fresh component state, no outstanding requests. -/
def w0 : World := { app := initState, pending := [] }

/-- A schedule in which a second search is submitted while the first
search's detail lookup is still in flight, and the stale detail callback
then arrives. -/
def raceEvents : List Event :=
  [Event.userSearch true "coffee",
   Event.searchResponse "coffee" [s1] okStatus none,
   Event.userSearch true "pizza",
   Event.detailsResponse s1 d1 okStatus]

/-- A result whose `rating` is present but zero (a falsy JS number). -/
def cexPlace : Place :=
  { place_id := "p0", name := some "Zero Star Cafe",
    formatted_address := some "12 Canal Road",
    formatted_phone_number := some "042-111",
    website := some "http://zero.example", rating := some 0,
    user_ratings_total := some 7, photos := none }

/-- A state holding a non-empty query. -/
def cexSearchState : AppState := { initState with query := "Coffee Karachi" }

/-- A state with a stored continuation token. -/
def moreState : AppState := { initState with nextPage := some 7 }

/-- A mid-session state: accumulated results, a continuation present. -/
def midState : AppState :=
  { activeTab := Tab.results, query := "coffee", results := [s1, d1],
    loading := true, error := "", nextPage := some 3 }

/-! ## Helper lemmas -/

theorem mk_data (l : List Char) : (String.mk l).data = l := rfl

theorem natDigitsAux_ne_nil (f n : Nat) : natDigitsAux (f + 1) n ≠ [] := by
  simp only [natDigitsAux]
  split
  · simp
  · simp

theorem jsNatToString_ne_empty (n : Nat) : jsNatToString n ≠ "" := by
  intro h
  have h2 : natDigits n = [] := congrArg String.data h
  exact natDigitsAux_ne_nil n n h2

theorem digitChar_isDigit (k : Nat) (h : k < 10) :
    isDigitCh (Nat.digitChar k) = true := by
  interval_cases k <;> decide

theorem natDigitsAux_digits (fuel : Nat) :
    ∀ n c, c ∈ natDigitsAux fuel n → isDigitCh c = true := by
  induction fuel with
  | zero => intro n c hc; simp [natDigitsAux] at hc
  | succ f ih =>
    intro n c hc
    simp only [natDigitsAux] at hc
    split at hc
    · simp only [List.mem_singleton] at hc
      subst hc
      exact digitChar_isDigit n (by assumption)
    · rcases List.mem_append.1 hc with h | h
      · exact ih _ _ h
      · simp only [List.mem_singleton] at h
        subst h
        exact digitChar_isDigit (n % 10) (Nat.mod_lt n (by omega))

theorem natDigits_digits (n : Nat) (c : Char) (hc : c ∈ natDigits n) :
    isDigitCh c = true :=
  natDigitsAux_digits (n + 1) n c hc

theorem natDigitsAux_length (k : Nat) :
    ∀ fuel n, 10 ^ k ≤ n → n < 10 ^ (k + 1) → k < fuel →
      (natDigitsAux fuel n).length = k + 1 := by
  induction k with
  | zero =>
    intro fuel n h1 h2 h3
    obtain ⟨f, rfl⟩ : ∃ f, fuel = f + 1 := ⟨fuel - 1, by omega⟩
    simp only [natDigitsAux]
    rw [if_pos (by simpa using h2)]
    rfl
  | succ k ih =>
    intro fuel n h1 h2 h3
    obtain ⟨f, rfl⟩ : ∃ f, fuel = f + 1 := ⟨fuel - 1, by omega⟩
    have h10 : 10 ≤ n := by
      have hp : (10 : Nat) ^ 1 ≤ 10 ^ (k + 1) :=
        Nat.pow_le_pow_right (by omega) (by omega)
      have := le_trans hp h1
      simpa using this
    simp only [natDigitsAux]
    rw [if_neg (by omega)]
    rw [List.length_append]
    have hdiv1 : 10 ^ k ≤ n / 10 := by
      rw [Nat.le_div_iff_mul_le (by omega)]
      calc 10 ^ k * 10 = 10 ^ (k + 1) := (pow_succ 10 k).symm
        _ ≤ n := h1
    have hdiv2 : n / 10 < 10 ^ (k + 1) := by
      rw [Nat.div_lt_iff_lt_mul (by omega)]
      calc n < 10 ^ (k + 1 + 1) := h2
        _ = 10 ^ (k + 1) * 10 := pow_succ 10 (k + 1)
    rw [ih f (n / 10) hdiv1 hdiv2 (by omega)]
    simp

theorem natDigits_length (k n : Nat) (h1 : 10 ^ k ≤ n)
    (h2 : n < 10 ^ (k + 1)) : (natDigits n).length = k + 1 := by
  have hk : k < n + 1 := by
    have := Nat.lt_pow_self (by omega : 1 < 10) k
    omega
  exact natDigitsAux_length k (n + 1) n h1 h2 hk

theorem pad2_shape (n : Nat) (h1 : 1 ≤ n) (h2 : n ≤ 99) :
    (pad2 n).length = 2 ∧ ∀ c ∈ pad2 n, isDigitCh c = true := by
  unfold pad2
  by_cases h : n < 10
  · rw [if_pos h]
    refine ⟨?_, ?_⟩
    · have hl := natDigits_length 0 n (by simpa using h1) (by simpa using h)
      simp [hl]
    · intro c hc
      rcases List.mem_cons.1 hc with rfl | hc
      · decide
      · exact natDigits_digits n c hc
  · rw [if_neg h]
    have e2 : (10 : Nat) ^ 2 = 100 := by norm_num
    refine ⟨natDigits_length 1 n (by simpa using Nat.not_lt.1 h) (by omega), ?_⟩
    intro c hc
    exact natDigits_digits n c hc

theorem pad4_shape (n : Nat) (h1 : 1000 ≤ n) (h2 : n ≤ 9999) :
    (pad4 n).length = 4 ∧ ∀ c ∈ pad4 n, isDigitCh c = true := by
  unfold pad4
  rw [if_neg (by omega), if_neg (by omega), if_neg (by omega)]
  have e3 : (10 : Nat) ^ 3 = 1000 := by norm_num
  have e4 : (10 : Nat) ^ 4 = 10000 := by norm_num
  exact ⟨natDigits_length 3 n (by omega) (by omega),
    fun c hc => natDigits_digits n c hc⟩

theorem list_len_two {l : List Char} (h : l.length = 2) :
    ∃ a b, l = [a, b] := by
  cases l with
  | nil => simp at h
  | cons a t =>
    cases t with
    | nil => simp at h
    | cons b u =>
      cases u with
      | nil => exact ⟨a, b, rfl⟩
      | cons c v => simp only [List.length_cons] at h; omega

theorem list_len_four {l : List Char} (h : l.length = 4) :
    ∃ a b c d, l = [a, b, c, d] := by
  cases l with
  | nil => simp at h
  | cons a t =>
    have ht : t.length = 3 := by simpa using h
    cases t with
    | nil => simp at ht
    | cons b u =>
      have hu : u.length = 2 := by simpa using ht
      obtain ⟨c, d, rfl⟩ := list_len_two hu
      exact ⟨a, b, c, d, rfl⟩

theorem isoDateSlice10_shape (y m d : Nat)
    (hy1 : 1000 ≤ y) (hy2 : y ≤ 9999) (hm1 : 1 ≤ m) (hm2 : m ≤ 12)
    (hd1 : 1 ≤ d) (hd2 : d ≤ 31) :
    isIsoDate (isoDateSlice10 y m d) = true := by
  obtain ⟨hyl, hyd⟩ := pad4_shape y hy1 hy2
  obtain ⟨hml, hmd⟩ := pad2_shape m hm1 (by omega)
  obtain ⟨hdl, hdd⟩ := pad2_shape d hd1 (by omega)
  obtain ⟨a, b, c, e, hy⟩ := list_len_four hyl
  obtain ⟨f, g, hm⟩ := list_len_two hml
  obtain ⟨i, j, hd⟩ := list_len_two hdl
  have hdata : (isoDateSlice10 y m d).data =
      [a, b, c, e, '-', f, g, '-', i, j] := by
    simp [isoDateSlice10, mk_data, hy, hm, hd]
  have ha := hyd a (by rw [hy]; simp)
  have hb := hyd b (by rw [hy]; simp)
  have hc2 := hyd c (by rw [hy]; simp)
  have he := hyd e (by rw [hy]; simp)
  have hf := hmd f (by rw [hm]; simp)
  have hg := hmd g (by rw [hm]; simp)
  have hi := hdd i (by rw [hd]; simp)
  have hj := hdd j (by rw [hd]; simp)
  rw [isIsoDate, hdata]
  simp [ha, hb, hc2, he, hf, hg, hi, hj]

theorem jsOrStr_ne_empty (v : Option String) (d : String) (hd : d ≠ "") :
    jsOrStr v d ≠ "" := by
  rcases v with _ | s
  · simpa [jsOrStr]
  · simp only [jsOrStr]
    split
    · exact hd
    · assumption

theorem jsOrNat_ne_empty (v : Option Nat) (d : String) (hd : d ≠ "") :
    jsOrNat v d ≠ "" := by
  rcases v with _ | n
  · simpa [jsOrNat]
  · simp only [jsOrNat]
    split
    · exact hd
    · exact jsNatToString_ne_empty n

/-- C7: for every persisted session record, `restoreSession` at startup
returns false and deletes the record when the current time is at or past
its expiry, and returns true and retains the record unchanged when the
expiry is still in the future. -/
theorem c7_restore_session (now : Nat) (s : SessionData) :
    (s.expiry ≤ now → restoreSession now (some s) = (false, none)) ∧
    (now < s.expiry → restoreSession now (some s) = (true, some s)) := by
  constructor
  · intro h
    simp only [restoreSession]
    rw [if_neg (by omega)]
  · intro h
    simp only [restoreSession]
    rw [if_pos h]

/-- Witness for C7 at a concrete expired and a concrete live record. -/
theorem c7_restore_session_witness :
    restoreSession 50 (some ⟨SECRET_KEY, 40⟩) = (false, none) ∧
    restoreSession 30 (some ⟨SECRET_KEY, 40⟩) = (true, some ⟨SECRET_KEY, 40⟩) :=
  ⟨(c7_restore_session 50 ⟨SECRET_KEY, 40⟩).1 (by decide),
   (c7_restore_session 30 ⟨SECRET_KEY, 40⟩).2 (by decide)⟩

/-- C8: `loadMore` with no stored continuation is a no-op: the whole state
is returned unchanged and no call is emitted. -/
theorem c8_loadMore_noop (st : AppState) (h : st.nextPage = none) :
    loadMore st = (st, []) := by
  simp [loadMore, h]

/-- Witness for C8 at the initial state (which has no continuation). -/
theorem c8_loadMore_noop_witness : loadMore initState = (initState, []) :=
  c8_loadMore_noop initState rfl

/-- C2: `loadMore` with a stored continuation sets the loading flag true
immediately and emits exactly the continuation call scheduled behind a
2000 ms `setTimeout`; by the timer contract such a call runs no sooner
than 2000 ms after the invocation. -/
theorem c2_loadMore_delay (st : AppState) (tok : Nat)
    (h : st.nextPage = some tok) :
    (loadMore st).1 = { st with loading := true } ∧
    (loadMore st).2 = [Emitted.after 2000 (Request.nextPage tok)] ∧
    (∀ schedAt fireAt, timerMinDelay 2000 schedAt fireAt →
      schedAt + 2000 ≤ fireAt) := by
  refine ⟨?_, ?_, ?_⟩ <;> simp [loadMore, h, timerMinDelay]

/-- Witness for C2 at a concrete state holding continuation token 7. -/
theorem c2_loadMore_delay_witness :
    (loadMore moreState).1 = { moreState with loading := true } ∧
    (loadMore moreState).2 = [Emitted.after 2000 (Request.nextPage 7)] :=
  ⟨(c2_loadMore_delay moreState 7 rfl).1, (c2_loadMore_delay moreState 7 rfl).2.1⟩

/-- C10: a failing page callback (initial search or pagination alike)
leaves the accumulated results, the stored continuation, the active tab
and the query untouched; it only overwrites the error message with the
verbatim status and clears the loading flag, and it emits no call. -/
theorem c10_failure_frame (res : List Place) (status : String)
    (pag : Option Pagination) (st : AppState) (hs : status ≠ okStatus) :
    (placesCallback res status pag st).1.results = st.results ∧
    (placesCallback res status pag st).1.nextPage = st.nextPage ∧
    (placesCallback res status pag st).1.activeTab = st.activeTab ∧
    (placesCallback res status pag st).1.query = st.query ∧
    (placesCallback res status pag st).1.error =
      "Google Places request failed: " ++ status ∧
    (placesCallback res status pag st).1.loading = false ∧
    (placesCallback res status pag st).2 = [] := by
  refine ⟨?_, ?_, ?_, ?_, ?_, ?_, ?_⟩ <;> simp [placesCallback, hs]

/-- Witness for C10: a failing pagination page over a mid-session state
with two accumulated results and a stored continuation. -/
theorem c10_failure_frame_witness :
    (placesCallback [] "INVALID_REQUEST" none midState).1.results = midState.results ∧
    (placesCallback [] "INVALID_REQUEST" none midState).1.nextPage = midState.nextPage ∧
    (placesCallback [] "INVALID_REQUEST" none midState).1.error =
      "Google Places request failed: INVALID_REQUEST" :=
  ⟨(c10_failure_frame [] "INVALID_REQUEST" none midState (by decide)).1,
   (c10_failure_frame [] "INVALID_REQUEST" none midState (by decide)).2.1,
   (c10_failure_frame [] "INVALID_REQUEST" none midState (by decide)).2.2.2.2.1⟩

/-- On a non-empty (after trimming) query with the SDK loaded,
`handleSearch` resets the session state and emits the single search
request. -/
theorem handleSearch_ok (st : AppState) (hq : jsTrim st.query ≠ "") :
    handleSearch true st =
      ({ st with loading := true, error := "", results := [], nextPage := none },
       [Emitted.now (Request.textSearch st.query)]) := by
  simp [handleSearch, handleSearchActs, hq, applyAct]

/-- C3 counterexample: with a non-empty query but the external SDK absent
(`window.google` undefined), `handleSearch` issues no request at all and
sets a blocking error — refuting, as stated, that every non-empty query
leads to exactly one search request with no error. -/
theorem c3_submit_counterexample :
    jsTrim cexSearchState.query ≠ "" ∧
    (handleSearch false cexSearchState).2 = [] ∧
    ¬ ((handleSearch false cexSearchState).2.length = 1) ∧
    (handleSearch false cexSearchState).1.error = sdkMissingMsg := by
  decide

/-- C3 amended: on a query that is non-empty after trimming,
`handleSearch` with the external SDK loaded executes exactly the four
resets (loading := true, error cleared, results cleared, continuation
cleared) first and the single `textSearch` request last; with the SDK
missing the reset still happens but the blocking SDK error is set, the
loading flag ends false, and no request is issued.  On an empty or
whitespace-only query it is a no-op either way: it emits nothing and
changes nothing. -/
theorem c3_submit_reset_amended (st : AppState) :
    (jsTrim st.query ≠ "" →
      handleSearchActs true st =
        [Act.setLoading true, Act.setError "", Act.setResults [],
         Act.setNextPage none, Act.issueSearch st.query] ∧
      handleSearch true st =
        ({ st with loading := true, error := "", results := [], nextPage := none },
         [Emitted.now (Request.textSearch st.query)]) ∧
      handleSearch false st =
        ({ st with
            loading := false, error := sdkMissingMsg, results := [],
            nextPage := none }, [])) ∧
    (jsTrim st.query = "" → ∀ sdkLoaded, handleSearch sdkLoaded st = (st, [])) := by
  constructor
  · intro hq
    refine ⟨?_, ?_, ?_⟩
    · simp [handleSearchActs, hq]
    · simp [handleSearch, handleSearchActs, hq, applyAct]
    · simp [handleSearch, handleSearchActs, hq, applyAct]
  · intro hq sdkLoaded
    simp [handleSearch, handleSearchActs, hq]

/-- Witness for C3 at a concrete non-empty query (with and without the
SDK) and a concrete whitespace-only one. -/
theorem c3_submit_reset_witness :
    handleSearch true cexSearchState =
      ({ cexSearchState with loading := true, error := "", results := [], nextPage := none },
       [Emitted.now (Request.textSearch "Coffee Karachi")]) ∧
    handleSearch false cexSearchState =
      ({ cexSearchState with
          loading := false, error := sdkMissingMsg,
          results := [], nextPage := none }, []) ∧
    handleSearch true { initState with query := "   " } =
      ({ initState with query := "   " }, []) :=
  ⟨((c3_submit_reset_amended cexSearchState).1 (by decide)).2.1,
   ((c3_submit_reset_amended cexSearchState).1 (by decide)).2.2,
   (c3_submit_reset_amended { initState with query := "   " }).2 (by decide) true⟩

/-- C5: when the initial search's callback reports a failing status `S`,
the error message becomes exactly `"Google Places request failed: " ++ S`,
the result list stays empty (the search had just cleared it), the loading
flag becomes false, and no further call is emitted (no retry). -/
theorem c5_search_failure (st : AppState) (res : List Place)
    (pag : Option Pagination) (status : String)
    (hq : jsTrim st.query ≠ "") (hs : status ≠ okStatus) :
    (placesCallback res status pag (handleSearch true st).1).1.results = [] ∧
    (placesCallback res status pag (handleSearch true st).1).1.error =
      "Google Places request failed: " ++ status ∧
    (placesCallback res status pag (handleSearch true st).1).1.loading = false ∧
    (placesCallback res status pag (handleSearch true st).1).2 = [] := by
  have h1 : (handleSearch true st).1 =
      { st with loading := true, error := "", results := [], nextPage := none } :=
    congrArg Prod.fst (handleSearch_ok st hq)
  rw [h1]
  refine ⟨?_, ?_, ?_, ?_⟩ <;> simp [placesCallback, hs]

/-- Witness for C5: the `REQUEST_DENIED` scenario from the spec. -/
theorem c5_search_failure_witness :
    (placesCallback [] "REQUEST_DENIED" none
      (handleSearch true cexSearchState).1).1.results = [] ∧
    (placesCallback [] "REQUEST_DENIED" none
      (handleSearch true cexSearchState).1).1.error =
      "Google Places request failed: REQUEST_DENIED" :=
  ⟨(c5_search_failure cexSearchState [] none "REQUEST_DENIED" (by decide) (by decide)).1,
   (c5_search_failure cexSearchState [] none "REQUEST_DENIED" (by decide) (by decide)).2.1⟩

/-- C4: a detail lookup reporting a failing status appends exactly the
bare summary to the result list (never dropping it) and touches nothing
else — in particular no error message is produced; moreover the fan-out
issues one `getDetails` per summary of the page up front, and consuming
one detail response removes only that response's request from the pending
set, so the remaining lookups are unaffected. -/
theorem c4_details_fallback (place details : Place) (status : String)
    (st : AppState) (hs : status ≠ okStatus) :
    detailsCallback place details status st =
      { st with results := st.results ++ [place] } ∧
    (detailsCallback place details status st).error = st.error ∧
    (detailsCallback place details status st).loading = st.loading ∧
    (detailsCallback place details status st).nextPage = st.nextPage ∧
    (∀ (res : List Place) (pag : Option Pagination) (st2 : AppState),
      (placesCallback res okStatus pag st2).2 = res.map fun p =>
        Emitted.now (Request.getDetails p.place_id detailFields)) ∧
    (∀ (w : World) (d2 : Place) (s2 : String),
      Request.getDetails place.place_id detailFields ∈ w.pending →
      (stepW w (Event.detailsResponse place d2 s2)).pending =
        w.pending.erase (Request.getDetails place.place_id detailFields)) := by
  refine ⟨?_, ?_, ?_, ?_, ?_, ?_⟩
  · simp [detailsCallback, hs]
  · simp [detailsCallback, hs]
  · simp [detailsCallback, hs]
  · simp [detailsCallback, hs]
  · intro res pag st2
    simp [placesCallback]
  · intro w d2 s2 hmem
    simp [stepW, hmem]

/-- Witness for C4: a `NOT_FOUND` detail response over the mid-session
state appends the bare summary `cexPlace`. -/
theorem c4_details_fallback_witness :
    detailsCallback cexPlace d1 "NOT_FOUND" midState =
      { midState with results := midState.results ++ [cexPlace] } ∧
    (detailsCallback cexPlace d1 "NOT_FOUND" midState).error = midState.error :=
  ⟨(c4_details_fallback cexPlace d1 "NOT_FOUND" midState (by decide)).1,
   (c4_details_fallback cexPlace d1 "NOT_FOUND" midState (by decide)).2.1⟩

/-- C9: there is an execution in which a second search ("pizza") is
submitted while the first search's ("coffee") detail lookup is still
pending: after the reset the result list is empty, yet the stale detail
callback then lands its record in the new search's list.  In general the
state carries no session tag, so a pending detail response is always
applied to the current state, never discarded as stale. -/
theorem c9_stale_callback_race :
    (run w0 (raceEvents.take 3)).app.results = [] ∧
    (run w0 (raceEvents.take 3)).app.query = "pizza" ∧
    Request.getDetails s1.place_id detailFields ∈
      (run w0 (raceEvents.take 3)).pending ∧
    (run w0 raceEvents).app.results = [d1] ∧
    (∀ (w : World) (p det : Place) (s : String),
      Request.getDetails p.place_id detailFields ∈ w.pending →
      (stepW w (Event.detailsResponse p det s)).app =
        detailsCallback p det s w.app) := by
  refine ⟨by decide, by decide, by decide, by decide, ?_⟩
  intro w p det s hmem
  simp [stepW, hmem]

/-- Witness for C9's universal part at a concrete pending request. -/
theorem c9_stale_callback_race_witness :
    (stepW { app := initState,
             pending := [Request.getDetails s1.place_id detailFields] }
        (Event.detailsResponse s1 d1 okStatus)).app =
      detailsCallback s1 d1 okStatus initState :=
  c9_stale_callback_race.2.2.2.2 _ s1 d1 okStatus (by decide)

/-- C1 counterexample: `cexPlace` has `rating` present with source value 0
(rendered "0"), yet the exported Rating cell is "N/A" — refuting, as
stated, that a present rating is always exported as the source value. -/
theorem c1_export_default_counterexample :
    cexPlace.rating = some 0 ∧
    jsNatToString 0 = "0" ∧
    cellOf cexPlace 4 = "N/A" ∧
    ¬ (cellOf cexPlace 4 = jsNatToString 0) := by
  decide

/-- C1 amended: every result maps to exactly six cells in the fixed
column order Name, Address, Phone, Website, Rating, Total Reviews; each
of name/address/phone/website/rating exports the source value when it is
present and truthy (a non-empty string, a non-zero number) and "N/A" when
it is missing or falsy; the review count exports its non-zero source
value and "0" when missing or zero; and no exported cell is empty. -/
theorem c1_export_columns_amended (item : Place) :
    (exportRow item).map Prod.fst =
      ["Name", "Address", "Phone", "Website", "Rating", "Total Reviews"] ∧
    (exportRow item).length = 6 ∧
    (∀ rs : List Place, (exportRows rs).length = rs.length) ∧
    (∀ i, i < 6 → cellOf item i ≠ "") ∧
    ((item.name = none ∨ item.name = some "") → cellOf item 0 = "N/A") ∧
    (∀ s, item.name = some s → s ≠ "" → cellOf item 0 = s) ∧
    ((item.formatted_address = none ∨ item.formatted_address = some "") →
      cellOf item 1 = "N/A") ∧
    (∀ s, item.formatted_address = some s → s ≠ "" → cellOf item 1 = s) ∧
    ((item.formatted_phone_number = none ∨
        item.formatted_phone_number = some "") → cellOf item 2 = "N/A") ∧
    (∀ s, item.formatted_phone_number = some s → s ≠ "" →
      cellOf item 2 = s) ∧
    ((item.website = none ∨ item.website = some "") →
      cellOf item 3 = "N/A") ∧
    (∀ s, item.website = some s → s ≠ "" → cellOf item 3 = s) ∧
    ((item.rating = none ∨ item.rating = some 0) →
      cellOf item 4 = "N/A") ∧
    (∀ n, item.rating = some n → n ≠ 0 → cellOf item 4 = jsNatToString n) ∧
    ((item.user_ratings_total = none ∨ item.user_ratings_total = some 0) →
      cellOf item 5 = "0") ∧
    (∀ n, item.user_ratings_total = some n → n ≠ 0 →
      cellOf item 5 = jsNatToString n) := by
  refine ⟨rfl, rfl, fun rs => by simp [exportRows], ?_, ?_, ?_, ?_, ?_, ?_,
    ?_, ?_, ?_, ?_, ?_, ?_, ?_⟩
  · intro i hi
    interval_cases i
    · exact jsOrStr_ne_empty item.name "N/A" (by decide)
    · exact jsOrStr_ne_empty item.formatted_address "N/A" (by decide)
    · exact jsOrStr_ne_empty item.formatted_phone_number "N/A" (by decide)
    · exact jsOrStr_ne_empty item.website "N/A" (by decide)
    · exact jsOrNat_ne_empty item.rating "N/A" (by decide)
    · exact jsOrNat_ne_empty item.user_ratings_total "0" (by decide)
  · rintro (h | h) <;> simp [cellOf, exportRow, jsOrStr, h]
  · intro s hs hne
    simp [cellOf, exportRow, jsOrStr, hs, hne]
  · rintro (h | h) <;> simp [cellOf, exportRow, jsOrStr, h]
  · intro s hs hne
    simp [cellOf, exportRow, jsOrStr, hs, hne]
  · rintro (h | h) <;> simp [cellOf, exportRow, jsOrStr, h]
  · intro s hs hne
    simp [cellOf, exportRow, jsOrStr, hs, hne]
  · rintro (h | h) <;> simp [cellOf, exportRow, jsOrStr, h]
  · intro s hs hne
    simp [cellOf, exportRow, jsOrStr, hs, hne]
  · rintro (h | h) <;> simp [cellOf, exportRow, jsOrNat, h]
  · intro n hn hne
    simp [cellOf, exportRow, jsOrNat, hn, hne]
  · rintro (h | h) <;> simp [cellOf, exportRow, jsOrNat, h]
  · intro n hn hne
    simp [cellOf, exportRow, jsOrNat, hn, hne]

/-- Witness for C1 at a concrete fully-populated and a concrete empty
result. -/
theorem c1_export_columns_witness :
    (exportRow d1).map Prod.fst =
      ["Name", "Address", "Phone", "Website", "Rating", "Total Reviews"] ∧
    cellOf d1 0 = "Cafe One Details" ∧
    cellOf d1 1 = "N/A" ∧
    cellOf s1 2 ≠ "" :=
  ⟨(c1_export_columns_amended d1).1,
   (c1_export_columns_amended d1).2.2.2.2.2.1 "Cafe One Details" rfl (by decide),
   (c1_export_columns_amended d1).2.2.2.2.2.2.1 (Or.inl rfl),
   (c1_export_columns_amended s1).2.2.2.1 2 (by decide)⟩

/-- C6: for any query, the filename is exactly
`"leads_" ++ sanitizedQuery ++ "_" ++ date ++ ".xlsx"`, where the
sanitized query replaces every character outside `[A-Za-z0-9_-]` with
`_` — so it contains only characters of that class — and the sliced ISO
date has the shape `YYYY-MM-DD` for any calendar date. -/
theorem c6_filename (q : String) (y m d : Nat)
    (hy1 : 1000 ≤ y) (hy2 : y ≤ 9999) (hm1 : 1 ≤ m) (hm2 : m ≤ 12)
    (hd1 : 1 ≤ d) (hd2 : d ≤ 31) :
    excelFilename q (isoDateSlice10 y m d) =
      "leads_" ++ sanitizedQuery q ++ "_" ++ isoDateSlice10 y m d ++ ".xlsx" ∧
    (∀ c ∈ (sanitizedQuery q).data, isFilenameSafe c = true) ∧
    isIsoDate (isoDateSlice10 y m d) = true := by
  refine ⟨rfl, ?_, isoDateSlice10_shape y m d hy1 hy2 hm1 hm2 hd1 hd2⟩
  intro c hc
  rw [sanitizedQuery, mk_data] at hc
  rcases List.mem_map.1 hc with ⟨a, _, rfl⟩
  by_cases h : isFilenameSafe a = true
  · simp [sanitizeChar, h]
  · unfold sanitizeChar
    rw [if_neg h]
    decide

/-- Witness for C6 at the query "Coffee Karachi" and the date 2026-10-11:
the space becomes an underscore and the filename is the expected
literal. -/
theorem c6_filename_witness :
    excelFilename "Coffee Karachi" (isoDateSlice10 2026 10 11) =
      "leads_Coffee_Karachi_2026-10-11.xlsx" ∧
    isIsoDate (isoDateSlice10 2026 10 11) = true :=
  ⟨((c6_filename "Coffee Karachi" 2026 10 11 (by decide) (by decide)
      (by decide) (by decide) (by decide) (by decide)).1).trans (by decide),
   (c6_filename "Coffee Karachi" 2026 10 11 (by decide) (by decide)
      (by decide) (by decide) (by decide) (by decide)).2.2⟩
